import Mathlib

/-!
Verification of the agent-domain-service MCP bridge (src/index.ts).

The bridge is embedded shallowly:

* JavaScript numbers that the program actually manipulates (prices, counts,
  scores) are modelled as `Int`; JavaScript truthiness on optional numbers /
  strings is modelled explicitly (`numTruthy`, `strTruthy`, `numOr`).
* The network is an oracle `Net` mapping each outbound endpoint to an HTTP
  response; `HttpResp α` carries the `ok` flag, the `statusText`, and the body
  decode outcome (`Except String α` models a `response.json()` that may fail).
* Every operation returns the list of HTTP requests it issued (the trace)
  alongside its `Except` outcome, so statements about outbound request bodies
  and about "no network request was made" are direct.
* The `CallToolRequestSchema` handler (`callTool`) mirrors the source's
  try/catch: the `try` body is `dispatchTool`, and any `Except.error` becomes
  the error-flagged text response.
-/

namespace ADS

/-- JavaScript truthiness of an optional number: `undefined`/`null` and `0`
are falsy, every other number is truthy. -/
def numTruthy : Option Int → Bool
  | none => false
  | some n => n ≠ 0

/-- JavaScript truthiness of an optional string: `undefined`/`null` and the
empty string are falsy. -/
def strTruthy : Option String → Bool
  | none => false
  | some s => s ≠ ""

/-- JavaScript `v || d` for an optional number `v`: yields `d` when `v` is
absent or `0`, else the number itself. -/
def numOr (v : Option Int) (d : Int) : Int :=
  match v with
  | none => d
  | some n => if n = 0 then d else n

/-- Upper-case hex digit for a nibble. -/
def hexDigitChar (n : Nat) : Char :=
  if n < 10 then Char.ofNat (48 + n) else Char.ofNat (55 + n)

/-- Percent-encoding of one byte, `%XX` with upper-case hex. -/
def percentByte (b : UInt8) : String :=
  String.singleton (Char.ofNat 37) ++
    String.singleton (hexDigitChar (b.toNat / 16)) ++
    String.singleton (hexDigitChar (b.toNat % 16))

/-- Percent-encoding of one character as its UTF-8 byte sequence. -/
def percentEncodeChar (c : Char) : String :=
  String.join (((String.singleton c).toUTF8).toList.map percentByte)

/-- Characters left unescaped by JavaScript's `encodeURIComponent`. -/
def uriUnreserved (c : Char) : Bool :=
  c.isAlphanum || ['-', '_', '.', '!', '~', '*', Char.ofNat 39, '(', ')'].contains c

/-- JavaScript's `encodeURIComponent`. -/
def encodeURIComponent (s : String) : String :=
  String.join (s.data.map fun c =>
    if uriUnreserved c then String.singleton c else percentEncodeChar c)

/-- Characters left unescaped by the `URLSearchParams` serializer
(application/x-www-form-urlencoded). -/
def formUnreserved (c : Char) : Bool :=
  c.isAlphanum || ['*', '-', '.', '_'].contains c

/-- One component of the `URLSearchParams` serialization: unreserved characters
kept, space as `+`, all else percent-encoded. -/
def formEncode (s : String) : String :=
  String.join (s.data.map fun c =>
    if formUnreserved c then String.singleton c
    else if c = ' ' then "+" else percentEncodeChar c)

/-- JavaScript's `toUpperCase` on the ASCII strings the program handles,
written as a plain character map so the kernel can evaluate it. -/
def toUpperCase (s : String) : String :=
  String.mk (s.data.map Char.toUpper)

/-- `const BASE_URL = "https://agentdomainservice.com"` -/
def BASE_URL : String := "https://agentdomainservice.com"

/-- `interface DomainCheckResult { cache: {...} }` -/
structure CacheInfo where
  hit : Bool
  ttl_seconds : Int
  stale : Bool
deriving DecidableEq, Repr

/-- One entry of `DomainCheckResult.suggestions`. -/
structure Suggestion where
  domain : String
  available : Bool
  purchase_price : Option Int
  renewal_price : Option Int
  premium : Bool
deriving DecidableEq, Repr

/-- `interface DomainCheckResult` (the `status` union of string literals is
kept as a runtime string, as in the source). -/
structure DomainCheckResult where
  domain : String
  available : Bool
  status : String
  checked_at : String
  expires_at : Option String
  source : String
  purchase_price : Option Int
  renewal_price : Option Int
  premium : Bool
  cache : CacheInfo
  suggestions : Option (List Suggestion)
deriving DecidableEq, Repr

/-- One per-TLD row of `ExploreResult.results`. -/
structure ExploreRow where
  tld : String
  domain : String
  available : Bool
  status : String
  purchase_price : Option Int
  renewal_price : Option Int
  premium : Bool
deriving DecidableEq, Repr

/-- `interface ExploreResult` -/
structure ExploreResult where
  name : String
  checked_at : String
  summary : String
  available_count : Int
  taken_count : Int
  tlds_checked : List String
  results : List ExploreRow
deriving DecidableEq, Repr

/-- One entry of `BrainstormResult.suggestions`. -/
structure BrainstormSuggestion where
  name : String
  domain : String
  tld : String
  available : Bool
  purchase_price : Option Int
  premium : Bool
deriving DecidableEq, Repr

/-- `interface BrainstormResult` -/
structure BrainstormResult where
  suggestions : List BrainstormSuggestion
  prompt : String
  generated_at : String
deriving DecidableEq, Repr

/-- `AnalyzeResult.scores` -/
structure AnalyzeScores where
  memorability : Int
  brandability : Int
  length : Int
  pronunciation : Int
  seo : Int
  overall : Int
deriving DecidableEq, Repr

/-- `interface AnalyzeResult` -/
structure AnalyzeResult where
  domain : String
  scores : AnalyzeScores
  pros : List String
  cons : List String
  verdict : String
deriving DecidableEq, Repr

/-- `SearchResult.filters` -/
structure SearchFilters where
  category : Option String
  max_price : Option Int
  min_price : Option Int
  tlds : Option (List String)
  sort : String
  limit : Int
deriving DecidableEq, Repr

/-- One entry of `SearchResult.domains`. -/
structure SearchDomain where
  domain : String
  name : String
  tld : String
  price : Option Int
  price_formatted : Option String
  premium : Bool
  categories : List String
deriving DecidableEq, Repr

/-- `interface SearchResult` -/
structure SearchResult where
  count : Int
  filters : SearchFilters
  domains : List SearchDomain
deriving DecidableEq, Repr

/-- One entry of `CategoriesResult.categories`. -/
structure CategoryInfo where
  slug : String
  title : String
  description : Option String
  available_domains : Int
deriving DecidableEq, Repr

/-- `interface CategoriesResult` -/
structure CategoriesResult where
  total_available_domains : Int
  category_count : Int
  categories : List CategoryInfo
deriving DecidableEq, Repr

/-- The structured JSON body `{prompt, count}` POSTed by `brainstormDomains`. -/
structure BrainstormBody where
  prompt : String
  count : Int
deriving DecidableEq, Repr

/-- The options record taken by `searchDomains`. -/
structure SearchOptions where
  category : Option String
  max_price : Option Int
  min_price : Option Int
  tlds : Option (List String)
  sort : Option String
  limit : Option Int
deriving DecidableEq, Repr

/-- An HTTP response as the bridge observes it: the `ok` flag, the
`statusText`, and the outcome of decoding the JSON body. -/
structure HttpResp (α : Type) where
  ok : Bool
  statusText : String
  body : Except String α

/-- The network oracle: one typed endpoint per remote API route. GET endpoints
are keyed by the full URL the bridge constructs, POST endpoints by their
structured body. -/
structure Net where
  lookup : String → HttpResp DomainCheckResult
  explore : String → HttpResp ExploreResult
  brainstorm : BrainstormBody → HttpResp BrainstormResult
  analyzeEp : String → HttpResp AnalyzeResult
  search : String → HttpResp SearchResult
  categories : HttpResp CategoriesResult

/-- One outbound HTTP request issued by the bridge. -/
inductive OutReq where
  | lookup (url : String)
  | explore (url : String)
  | brainstorm (url : String) (body : BrainstormBody)
  | analyze (url : String) (domain : String)
  | search (url : String)
  | categories (url : String)
deriving DecidableEq, Repr

/-- URL built by `checkDomain`. -/
def lookupUrl (domain : String) : String :=
  BASE_URL ++ "/api/v1/lookup/" ++ encodeURIComponent domain

/-- URL built by `exploreName`. -/
def exploreUrl (name : String) : String :=
  BASE_URL ++ "/api/v1/explore/" ++ encodeURIComponent name

/-- URL used by `brainstormDomains`. -/
def brainstormUrl : String := BASE_URL ++ "/api/v1/brainstorm"

/-- URL used by `analyzeDomain`. -/
def analyzeUrl : String := BASE_URL ++ "/api/v1/analyze-domain"

/-- URL used by `listCategories`. -/
def categoriesUrl : String := BASE_URL ++ "/api/v1/domains/categories"

/-- The `URLSearchParams` built by `searchDomains`: each optional filter is
added only when truthy (`if (options.category) params.set(...)`, etc.; for
`tlds` the source tests `options.tlds && options.tlds.length > 0`). -/
def searchParams (options : SearchOptions) : List (String × String) :=
  (match options.category with
   | some c => if c = "" then [] else [("category", c)]
   | none => []) ++
  (match options.max_price with
   | some p => if p = 0 then [] else [("max_price", toString p)]
   | none => []) ++
  (match options.min_price with
   | some p => if p = 0 then [] else [("min_price", toString p)]
   | none => []) ++
  (match options.tlds with
   | some l => if l.length > 0 then [("tlds", String.intercalate "," l)] else []
   | none => []) ++
  (match options.sort with
   | some s => if s = "" then [] else [("sort", s)]
   | none => []) ++
  (match options.limit with
   | some n => if n = 0 then [] else [("limit", toString n)]
   | none => [])

/-- `params.toString()`: form-urlencoded serialization of the search params. -/
def searchQueryString (options : SearchOptions) : String :=
  String.intercalate "&"
    ((searchParams options).map fun p => formEncode p.1 ++ "=" ++ formEncode p.2)

/-- URL built by `searchDomains` (the `?` is appended unconditionally, as in
the template literal). -/
def searchUrl (options : SearchOptions) : String :=
  BASE_URL ++ "/api/v1/domains/search?" ++ searchQueryString options

/-- `async function checkDomain(domain)`: GET the lookup URL; non-ok status
throws `Failed to check domain: <statusText>`, otherwise the decoded body is
returned. The first component is the trace of requests issued. -/
def checkDomain (net : Net) (domain : String) :
    List OutReq × Except String DomainCheckResult :=
  let url := lookupUrl domain
  let response := net.lookup url
  ([OutReq.lookup url],
   if response.ok = false then
     Except.error ("Failed to check domain: " ++ response.statusText)
   else response.body)

/-- `async function exploreName(name)`. -/
def exploreName (net : Net) (name : String) :
    List OutReq × Except String ExploreResult :=
  let url := exploreUrl name
  let response := net.explore url
  ([OutReq.explore url],
   if response.ok = false then
     Except.error ("Failed to explore name: " ++ response.statusText)
   else response.body)

/-- `async function brainstormDomains(prompt, count = 10)`: POSTs the JSON
body `{prompt, count}`. -/
def brainstormDomains (net : Net) (prompt : String) (count : Int) :
    List OutReq × Except String BrainstormResult :=
  let body : BrainstormBody := { prompt := prompt, count := count }
  let response := net.brainstorm body
  ([OutReq.brainstorm brainstormUrl body],
   if response.ok = false then
     Except.error ("Failed to brainstorm: " ++ response.statusText)
   else response.body)

/-- `async function analyzeDomain(domain)`: POSTs the JSON body `{domain}`. -/
def analyzeDomain (net : Net) (domain : String) :
    List OutReq × Except String AnalyzeResult :=
  let response := net.analyzeEp domain
  ([OutReq.analyze analyzeUrl domain],
   if response.ok = false then
     Except.error ("Failed to analyze domain: " ++ response.statusText)
   else response.body)

/-- `async function searchDomains(options)`. -/
def searchDomains (net : Net) (options : SearchOptions) :
    List OutReq × Except String SearchResult :=
  let url := searchUrl options
  let response := net.search url
  ([OutReq.search url],
   if response.ok = false then
     Except.error ("Failed to search domains: " ++ response.statusText)
   else response.body)

/-- `async function listCategories()`. -/
def listCategories (net : Net) :
    List OutReq × Except String CategoriesResult :=
  let response := net.categories
  ([OutReq.categories categoriesUrl],
   if response.ok = false then
     Except.error ("Failed to list categories: " ++ response.statusText)
   else response.body)

/-- Template interpolation of a nullable number (`null` renders as "null",
though every use in the source is guarded by truthiness). -/
def optNumText : Option Int → String
  | some n => toString n
  | none => "null"

/-- One alternative-suggestion bullet line of `formatDomainResult`
(the loop body over `result.suggestions.slice(0, 5)`). -/
def suggestionLine (s : Suggestion) : String :=
  "  • " ++ s.domain ++
    (if numTruthy s.purchase_price then " - $" ++ optNumText s.purchase_price else "") ++
    (if s.premium then " (premium)" else "")

/-- The `lines` array built by `formatDomainResult` before `join("\n")`. -/
def formatDomainResultLines (result : DomainCheckResult) : List String :=
  ["Domain: " ++ result.domain,
   "Status: " ++ toUpperCase result.status,
   "Available: " ++ (if result.available then "Yes" else "No")] ++
  (if result.available && numTruthy result.purchase_price then
     ["Purchase Price: $" ++ optNumText result.purchase_price] ++
     (if numTruthy result.renewal_price then
        ["Renewal Price: $" ++ optNumText result.renewal_price ++ "/year"]
      else []) ++
     (if result.premium then ["Note: This is a PREMIUM domain"] else [])
   else []) ++
  (match result.suggestions with
   | some sg =>
     if sg.length > 0 then
       "" :: "Available Alternatives:" :: (sg.take 5).map suggestionLine
     else []
   | none => [])

/-- `function formatDomainResult(result)`. -/
def formatDomainResult (result : DomainCheckResult) : String :=
  String.intercalate "\n" (formatDomainResultLines result)

/-- One per-TLD row of `formatExploreResult`. -/
def exploreRowLine (r : ExploreRow) : String :=
  "  " ++ r.domain ++ ": " ++
    (if r.available then "✓ Available" else "✗ Taken") ++
    (if r.available && numTruthy r.purchase_price then " - $" ++ optNumText r.purchase_price else "") ++
    (if r.premium then " (premium)" else "")

/-- The `lines` array built by `formatExploreResult`. -/
def formatExploreResultLines (result : ExploreResult) : List String :=
  ["Name: " ++ result.name,
   "Summary: " ++ result.summary,
   "Available: " ++ toString result.available_count ++ " | Taken: " ++ toString result.taken_count,
   "",
   "Results by TLD:"] ++
  result.results.map exploreRowLine

/-- `function formatExploreResult(result)`. -/
def formatExploreResult (result : ExploreResult) : String :=
  String.intercalate "\n" (formatExploreResultLines result)

/-- One available-suggestion bullet line of `formatBrainstormResult`. -/
def brainstormAvailableLine (s : BrainstormSuggestion) : String :=
  "  • " ++ s.domain ++
    (if numTruthy s.purchase_price then " - $" ++ optNumText s.purchase_price else "") ++
    (if s.premium then " (premium)" else "")

/-- The `lines` array built by `formatBrainstormResult`. -/
def formatBrainstormResultLines (result : BrainstormResult) : List String :=
  let available := result.suggestions.filter fun s => s.available
  let taken := result.suggestions.filter fun s => !s.available
  ["Brainstorm Results for: \"" ++ result.prompt ++ "\"", ""] ++
  (if available.length > 0 then
     ("✓ Available Domains (" ++ toString available.length ++ "):") ::
       available.map brainstormAvailableLine
   else []) ++
  (if taken.length > 0 then
     "" :: ("✗ Already Taken (" ++ toString taken.length ++ "):") ::
       taken.map (fun s => "  • " ++ s.domain)
   else []) ++
  (if available.length = 0 then
     ["", "No available domains found. Try a different description or be more specific."]
   else [])

/-- `function formatBrainstormResult(result)`. -/
def formatBrainstormResult (result : BrainstormResult) : String :=
  String.intercalate "\n" (formatBrainstormResultLines result)

/-- The `lines` array built by `formatAnalyzeResult`. The source's guard
`if (result.scores)` is on a non-nullable field of the declared type, hence
always taken in the embedding. -/
def formatAnalyzeResultLines (result : AnalyzeResult) : List String :=
  ["Domain Analysis: " ++ result.domain,
   "",
   "Scores (out of 100):",
   "  Memorability:   " ++ toString result.scores.memorability ++ "/100",
   "  Brandability:   " ++ toString result.scores.brandability ++ "/100",
   "  Length:         " ++ toString result.scores.length ++ "/100",
   "  Pronunciation:  " ++ toString result.scores.pronunciation ++ "/100",
   "  SEO Potential:  " ++ toString result.scores.seo ++ "/100",
   "  Overall:        " ++ toString result.scores.overall ++ "/100",
   ""] ++
  (if result.pros.length > 0 then
     "Pros:" :: result.pros.map (fun pro => "  ✓ " ++ pro)
   else []) ++
  (if result.cons.length > 0 then
     "" :: "Cons:" :: result.cons.map (fun con => "  ✗ " ++ con)
   else []) ++
  (if result.verdict = "" then [] else ["", "Verdict: " ++ result.verdict])

/-- `function formatAnalyzeResult(result)`. -/
def formatAnalyzeResult (result : AnalyzeResult) : String :=
  String.intercalate "\n" (formatAnalyzeResultLines result)

/-- The `filters` summary entries of `formatSearchResult` (note the source
tests `result.filters.tlds` for truthiness only, so a present-but-empty list
is still rendered). -/
def searchFilterEntries (f : SearchFilters) : List String :=
  (if strTruthy f.category then ["category: " ++ f.category.getD ""] else []) ++
  (if numTruthy f.max_price then ["max price: $" ++ optNumText f.max_price] else []) ++
  (match f.tlds with
   | some l => ["TLDs: " ++ String.intercalate ", " l]
   | none => [])

/-- One domain row of `formatSearchResult` (`d.price_formatted || "price
unknown"`). -/
def searchDomainLine (d : SearchDomain) : String :=
  "  ✓ " ++ d.domain ++ " - " ++
    (if strTruthy d.price_formatted then d.price_formatted.getD "" else "price unknown") ++
    (if d.premium then " (premium)" else "")

/-- The `lines` array built by `formatSearchResult`. -/
def formatSearchResultLines (result : SearchResult) : List String :=
  ["Found " ++ toString result.count ++ " available domains"] ++
  (let filters := searchFilterEntries result.filters
   if filters.length > 0 then ["Filters: " ++ String.intercalate " | " filters] else []) ++
  [""] ++
  (if result.domains.length = 0 then
     ["No domains found matching your criteria.",
      "Try adjusting your filters (higher max_price, different category, etc.)"]
   else
     "Available Domains:" :: result.domains.map searchDomainLine)

/-- `function formatSearchResult(result)`. -/
def formatSearchResult (result : SearchResult) : String :=
  String.intercalate "\n" (formatSearchResultLines result)

/-- The per-category lines of `formatCategoriesResult` (a description line is
added only when `cat.description` is truthy). -/
def categoryLines (cat : CategoryInfo) : List String :=
  ("  • " ++ cat.title ++ " (" ++ cat.slug ++ "): " ++ toString cat.available_domains ++ " domains") ::
  (if strTruthy cat.description then ["    " ++ cat.description.getD ""] else [])

/-- The `lines` array built by `formatCategoriesResult`. -/
def formatCategoriesResultLines (result : CategoriesResult) : List String :=
  [toString result.total_available_domains ++ " available domains across " ++
     toString result.category_count ++ " categories",
   "",
   "Categories (sorted by domain count):"] ++
  (result.categories.map categoryLines).flatten ++
  ["",
   "Use search_domains with a category slug to find domains in that category."]

/-- `function formatCategoriesResult(result)`. -/
def formatCategoriesResult (result : CategoriesResult) : String :=
  String.intercalate "\n" (formatCategoriesResultLines result)

/-- The `arguments` object of a tool call: every property the handler may
read, each possibly absent. -/
structure Args where
  domain : Option String := none
  name : Option String := none
  description : Option String := none
  count : Option Int := none
  category : Option String := none
  max_price : Option Int := none
  min_price : Option Int := none
  tlds : Option (List String) := none
  sort : Option String := none
  limit : Option Int := none
deriving DecidableEq, Repr

/-- One `{type: "text", text}` content block. -/
structure TextContent where
  type : String
  text : String
deriving DecidableEq, Repr

/-- The protocol response returned by the call-tool handler (`isError` is
absent on success in the source, modelled as `false`). -/
structure CallToolResponse where
  content : List TextContent
  isError : Bool
deriving DecidableEq, Repr

/-- The `try` body of the `CallToolRequestSchema` handler: dispatch on the
tool name, validate required arguments with JavaScript truthiness, run the
operation, and format its result. Failures are the thrown `Error` messages. -/
def dispatchTool (net : Net) (name : String) (args : Args) :
    List OutReq × Except String String :=
  match name with
  | "check_domain" =>
    match args.domain with
    | some d =>
      if d = "" then ([], Except.error "Domain is required")
      else
        let r := checkDomain net d
        (r.1, Except.map formatDomainResult r.2)
    | none => ([], Except.error "Domain is required")
  | "explore_name" =>
    match args.name with
    | some n =>
      if n = "" then ([], Except.error "Name is required")
      else
        let r := exploreName net n
        (r.1, Except.map formatExploreResult r.2)
    | none => ([], Except.error "Name is required")
  | "brainstorm_domains" =>
    match args.description with
    | some desc =>
      if desc = "" then ([], Except.error "Description is required")
      else
        let r := brainstormDomains net desc (min (numOr args.count 10) 20)
        (r.1, Except.map formatBrainstormResult r.2)
    | none => ([], Except.error "Description is required")
  | "analyze_domain" =>
    match args.domain with
    | some d =>
      if d = "" then ([], Except.error "Domain is required")
      else
        let r := analyzeDomain net d
        (r.1, Except.map formatAnalyzeResult r.2)
    | none => ([], Except.error "Domain is required")
  | "search_domains" =>
    let r := searchDomains net
      { category := args.category, max_price := args.max_price,
        min_price := args.min_price, tlds := args.tlds,
        sort := args.sort, limit := args.limit }
    (r.1, Except.map formatSearchResult r.2)
  | "list_categories" =>
    let r := listCategories net
    (r.1, Except.map formatCategoriesResult r.2)
  | _ => ([], Except.error ("Unknown tool: " ++ name))

/-- The complete `CallToolRequestSchema` handler: the `try` body above wrapped
in the catch that converts any failure into an error-flagged text response. -/
def callTool (net : Net) (name : String) (args : Args) :
    List OutReq × CallToolResponse :=
  match dispatchTool net name args with
  | (trace, Except.ok text) =>
    (trace, { content := [{ type := "text", text := text }], isError := false })
  | (trace, Except.error msg) =>
    (trace, { content := [{ type := "text", text := "Error: " ++ msg }], isError := true })

/-- A network oracle all of whose responses carry a non-success status with
the given status text (bodies are irrelevant on that path). -/
def failNet (st : String) : Net where
  lookup := fun _ => { ok := false, statusText := st, body := Except.error "no body" }
  explore := fun _ => { ok := false, statusText := st, body := Except.error "no body" }
  brainstorm := fun _ => { ok := false, statusText := st, body := Except.error "no body" }
  analyzeEp := fun _ => { ok := false, statusText := st, body := Except.error "no body" }
  search := fun _ => { ok := false, statusText := st, body := Except.error "no body" }
  categories := { ok := false, statusText := st, body := Except.error "no body" }

/-- Every response of `net` is non-success and carries status text `st`. -/
def netFailsWith (net : Net) (st : String) : Prop :=
  (∀ u, (net.lookup u).ok = false ∧ (net.lookup u).statusText = st) ∧
  (∀ u, (net.explore u).ok = false ∧ (net.explore u).statusText = st) ∧
  (∀ b, (net.brainstorm b).ok = false ∧ (net.brainstorm b).statusText = st) ∧
  (∀ d, (net.analyzeEp d).ok = false ∧ (net.analyzeEp d).statusText = st) ∧
  (∀ u, (net.search u).ok = false ∧ (net.search u).statusText = st) ∧
  (net.categories.ok = false ∧ net.categories.statusText = st)

/-- Comparison definition following the spec's words for the search query:
the keys of "the optional fields actually supplied" (present at all),
independent of their values. -/
def suppliedFilterKeys (o : SearchOptions) : List String :=
  (if o.category.isSome then ["category"] else []) ++
  (if o.max_price.isSome then ["max_price"] else []) ++
  (if o.min_price.isSome then ["min_price"] else []) ++
  (if o.tlds.isSome then ["tlds"] else []) ++
  (if o.sort.isSome then ["sort"] else []) ++
  (if o.limit.isSome then ["limit"] else [])

/-- JavaScript truthiness of an optional list (the source additionally
requires it to be non-empty for the `tlds` filter). -/
def listTruthy (t : Option (List String)) : Bool :=
  match t with
  | some l => decide (l.length > 0)
  | none => false

/-- Comparison definition for the amended search-query claim: the keys of the
optional fields supplied with truthy values (non-zero numbers, non-empty
strings, non-empty lists). -/
def truthyFilterKeys (o : SearchOptions) : List String :=
  (if strTruthy o.category then ["category"] else []) ++
  (if numTruthy o.max_price then ["max_price"] else []) ++
  (if numTruthy o.min_price then ["min_price"] else []) ++
  (if listTruthy o.tlds then ["tlds"] else []) ++
  (if strTruthy o.sort then ["sort"] else []) ++
  (if numTruthy o.limit then ["limit"] else [])

/-- The search options with only `max_price = 15` supplied. -/
def maxPriceOnly : SearchOptions :=
  { category := none, max_price := some 15, min_price := none,
    tlds := none, sort := none, limit := none }

/-- The search options with `max_price = 0` supplied (a supplied-but-falsy
value, which the source drops from the query string). -/
def zeroMaxPrice : SearchOptions :=
  { category := none, max_price := some 0, min_price := none,
    tlds := none, sort := none, limit := none }

/-- The sample lookup response of the spec's formatting test. -/
def xcomLookup : DomainCheckResult :=
  { domain := "x.com", available := true, status := "available",
    checked_at := "", expires_at := none, source := "",
    purchase_price := some 12, renewal_price := some 15, premium := false,
    cache := { hit := false, ttl_seconds := 0, stale := false },
    suggestions := none }

/-- A lookup result with no pricing and no suggestions. -/
def bareLookup : DomainCheckResult :=
  { domain := "y.org", available := false, status := "registered",
    checked_at := "", expires_at := none, source := "",
    purchase_price := none, renewal_price := none, premium := false,
    cache := { hit := false, ttl_seconds := 0, stale := false },
    suggestions := none }

/-- Seven alternative suggestions. -/
def crowdedSuggestions : List Suggestion :=
  [{ domain := "a1.com", available := true, purchase_price := some 9,
     renewal_price := some 9, premium := false },
   { domain := "a2.com", available := true, purchase_price := some 8,
     renewal_price := none, premium := true },
   { domain := "a3.com", available := true, purchase_price := none,
     renewal_price := none, premium := false },
   { domain := "a4.com", available := true, purchase_price := some 7,
     renewal_price := some 7, premium := false },
   { domain := "a5.com", available := true, purchase_price := some 6,
     renewal_price := some 6, premium := false },
   { domain := "a6.com", available := true, purchase_price := some 5,
     renewal_price := some 5, premium := false },
   { domain := "a7.com", available := true, purchase_price := some 4,
     renewal_price := some 4, premium := false }]

/-- A lookup result carrying seven alternative suggestions. -/
def crowdedLookup : DomainCheckResult :=
  { bareLookup with suggestions := some crowdedSuggestions }

/-- An analysis result with empty pros, cons and verdict. -/
def bareAnalyze : AnalyzeResult :=
  { domain := "z.io",
    scores := { memorability := 1, brandability := 2, length := 3,
                pronunciation := 4, seo := 5, overall := 6 },
    pros := [], cons := [], verdict := "" }

/-- A search result with no filters echoed and one row without a formatted
price. -/
def bareSearch : SearchResult :=
  { count := 1,
    filters := { category := none, max_price := none, min_price := none,
                 tlds := none, sort := "price_asc", limit := 20 },
    domains := [{ domain := "d.com", name := "d", tld := "com", price := none,
                  price_formatted := none, premium := false, categories := [] }] }

/-- A categories result whose single category has no description. -/
def bareCategories : CategoriesResult :=
  { total_available_domains := 3, category_count := 1,
    categories := [{ slug := "ai", title := "AI", description := none,
                     available_domains := 3 }] }

/-- The call-tool handler's trace is the dispatch trace, whatever the
outcome. -/
theorem callTool_trace (net : Net) (name : String) (args : Args) :
    (callTool net name args).1 = (dispatchTool net name args).1 := by
  rcases h : dispatchTool net name args with ⟨tr, r⟩
  cases r <;> simp [callTool, h]

/-- C1: for every tool name and arguments, the call-tool handler returns a
response whose content is a single text block (it is a total function, so no
exception crosses the protocol boundary), and whenever the dispatched
operation fails for any reason the response is error-flagged and its text is
the failure message prefixed with "Error: ". -/
theorem C1_callTool_shape_and_error_boundary :
    ∀ (net : Net) (name : String) (args : Args),
      (∃ t, (callTool net name args).2.content = [{ type := "text", text := t }]) ∧
      (∀ trace msg, dispatchTool net name args = (trace, Except.error msg) →
        callTool net name args =
          (trace, { content := [{ type := "text", text := "Error: " ++ msg }],
                    isError := true })) := by
  intro net name args
  constructor
  · rcases h : dispatchTool net name args with ⟨tr, r⟩
    cases r with
    | ok t => exact ⟨t, by simp [callTool, h]⟩
    | error m => exact ⟨"Error: " ++ m, by simp [callTool, h]⟩
  · intro trace msg h
    simp [callTool, h]

/-- C1 witness: the handler applied at a failing concrete input. -/
theorem C1_witness :
    callTool (failNet "x") "nope" {} =
      ([], { content := [{ type := "text", text := "Error: Unknown tool: nope" }],
             isError := true }) :=
  (C1_callTool_shape_and_error_boundary (failNet "x") "nope" {}).2
    [] "Unknown tool: nope" rfl

/-- C2: against a network all of whose responses are non-success with status
text `st`, every operation fails with an error message carrying `st`, and the
dispatch boundary converts each such failure into an error-flagged text
response beginning with "Error: " and containing `st`. -/
theorem C2_http_failure_propagation :
    ∀ (net : Net) (st : String), netFailsWith net st →
      (∀ d, (checkDomain net d).2 =
        Except.error ("Failed to check domain: " ++ st)) ∧
      (∀ n, (exploreName net n).2 =
        Except.error ("Failed to explore name: " ++ st)) ∧
      (∀ p c, (brainstormDomains net p c).2 =
        Except.error ("Failed to brainstorm: " ++ st)) ∧
      (∀ d, (analyzeDomain net d).2 =
        Except.error ("Failed to analyze domain: " ++ st)) ∧
      (∀ o, (searchDomains net o).2 =
        Except.error ("Failed to search domains: " ++ st)) ∧
      ((listCategories net).2 =
        Except.error ("Failed to list categories: " ++ st)) ∧
      (∀ args d, args.domain = some d → d ≠ "" →
        (callTool net "check_domain" args).2 =
          { content := [{ type := "text",
                          text := "Error: Failed to check domain: " ++ st }],
            isError := true }) ∧
      (∀ args n, args.name = some n → n ≠ "" →
        (callTool net "explore_name" args).2 =
          { content := [{ type := "text",
                          text := "Error: Failed to explore name: " ++ st }],
            isError := true }) ∧
      (∀ args p, args.description = some p → p ≠ "" →
        (callTool net "brainstorm_domains" args).2 =
          { content := [{ type := "text",
                          text := "Error: Failed to brainstorm: " ++ st }],
            isError := true }) ∧
      (∀ args d, args.domain = some d → d ≠ "" →
        (callTool net "analyze_domain" args).2 =
          { content := [{ type := "text",
                          text := "Error: Failed to analyze domain: " ++ st }],
            isError := true }) ∧
      (∀ args, (callTool net "search_domains" args).2 =
        { content := [{ type := "text",
                        text := "Error: Failed to search domains: " ++ st }],
          isError := true }) ∧
      (∀ args, (callTool net "list_categories" args).2 =
        { content := [{ type := "text",
                        text := "Error: Failed to list categories: " ++ st }],
          isError := true }) := by
  intro net st h
  obtain ⟨h1, h2, h3, h4, h5, h6⟩ := h
  refine ⟨?_, ?_, ?_, ?_, ?_, ?_, ?_, ?_, ?_, ?_, ?_, ?_⟩
  · intro d; simp [checkDomain, (h1 (lookupUrl d)).1, (h1 (lookupUrl d)).2]
  · intro n; simp [exploreName, (h2 (exploreUrl n)).1, (h2 (exploreUrl n)).2]
  · intro p c
    simp [brainstormDomains, (h3 { prompt := p, count := c }).1,
      (h3 { prompt := p, count := c }).2]
  · intro d; simp [analyzeDomain, (h4 d).1, (h4 d).2]
  · intro o; simp [searchDomains, (h5 (searchUrl o)).1, (h5 (searchUrl o)).2]
  · simp [listCategories, h6.1, h6.2]
  · intro args d hd hne
    simp [callTool, dispatchTool, hd, hne, checkDomain, Except.map,
      (h1 (lookupUrl d)).1, (h1 (lookupUrl d)).2]
    rfl
  · intro args n hn hne
    simp [callTool, dispatchTool, hn, hne, exploreName, Except.map,
      (h2 (exploreUrl n)).1, (h2 (exploreUrl n)).2]
    rfl
  · intro args p hp hne
    simp [callTool, dispatchTool, hp, hne, brainstormDomains, Except.map,
      (h3 { prompt := p, count := min (numOr args.count 10) 20 }).1,
      (h3 { prompt := p, count := min (numOr args.count 10) 20 }).2]
    rfl
  · intro args d hd hne
    simp [callTool, dispatchTool, hd, hne, analyzeDomain, Except.map,
      (h4 d).1, (h4 d).2]
    rfl
  · intro args
    have hs := h5 (searchUrl { category := args.category, max_price := args.max_price, min_price := args.min_price, tlds := args.tlds, sort := args.sort, limit := args.limit })
    simp [callTool, dispatchTool, searchDomains, Except.map, hs.1, hs.2]
    rfl
  · intro args
    simp [callTool, dispatchTool, listCategories, Except.map, h6.1, h6.2]
    rfl

/-- C2 witness: a concrete 500-style failure surfaced through the handler. -/
theorem C2_witness :
    (callTool (failNet "Internal Server Error") "check_domain"
        { domain := some "x.com" }).2 =
      { content := [{ type := "text",
                      text := "Error: Failed to check domain: Internal Server Error" }],
        isError := true } :=
  ((C2_http_failure_propagation (failNet "Internal Server Error")
      "Internal Server Error"
      ⟨fun _ => ⟨rfl, rfl⟩, fun _ => ⟨rfl, rfl⟩, fun _ => ⟨rfl, rfl⟩,
       fun _ => ⟨rfl, rfl⟩, fun _ => ⟨rfl, rfl⟩, ⟨rfl, rfl⟩⟩).2.2.2.2.2.2.1)
    { domain := some "x.com" } "x.com" rfl (by decide)

/-- C3: for check_domain and analyze_domain with an absent or empty domain,
the handler issues no network request (the trace is empty) and returns the
error-flagged "Domain is required" response. -/
theorem C3_missing_domain_no_network :
    ∀ (net : Net) (args : Args),
      args.domain = none ∨ args.domain = some "" →
      callTool net "check_domain" args =
        ([], { content := [{ type := "text", text := "Error: Domain is required" }],
               isError := true }) ∧
      callTool net "analyze_domain" args =
        ([], { content := [{ type := "text", text := "Error: Domain is required" }],
               isError := true }) := by
  intro net args h
  rcases h with h | h <;>
    exact ⟨by simp [callTool, dispatchTool, h], by simp [callTool, dispatchTool, h]⟩

/-- C3 witness: the handler at an absent domain. -/
theorem C3_witness :
    callTool (failNet "x") "check_domain" {} =
      ([], { content := [{ type := "text", text := "Error: Domain is required" }],
             isError := true }) :=
  (C3_missing_domain_no_network (failNet "x") {} (Or.inl rfl)).1

/-- C4: for every tool name outside the registry, the handler returns an
error-flagged response whose text carries "Unknown tool" and the name, and
issues no network request. -/
theorem C4_unknown_tool :
    ∀ (net : Net) (args : Args) (name : String),
      name ≠ "check_domain" → name ≠ "explore_name" →
      name ≠ "brainstorm_domains" → name ≠ "analyze_domain" →
      name ≠ "search_domains" → name ≠ "list_categories" →
      callTool net name args =
        ([], { content := [{ type := "text", text := "Error: Unknown tool: " ++ name }],
               isError := true }) := by
  intro net args name h1 h2 h3 h4 h5 h6
  have hd : dispatchTool net name args = ([], Except.error ("Unknown tool: " ++ name)) := by
    unfold dispatchTool
    split <;> simp_all
  simp [callTool, hd]
  rfl

/-- C4 witness: an unregistered tool name. -/
theorem C4_witness :
    callTool (failNet "x") "frobnicate" {} =
      ([], { content := [{ type := "text", text := "Error: Unknown tool: frobnicate" }],
             isError := true }) :=
  C4_unknown_tool (failNet "x") {} "frobnicate"
    (by decide) (by decide) (by decide) (by decide) (by decide) (by decide)

/-- C5: for brainstorm_domains with a non-empty description, a supplied count
of 37 is clamped to 20 in the outbound POST body, an absent count becomes 10,
and the count sent never exceeds 20. -/
theorem C5_brainstorm_count_clamped :
    ∀ (net : Net) (args : Args) (d : String),
      args.description = some d → d ≠ "" →
      (args.count = some 37 →
        (callTool net "brainstorm_domains" args).1 =
          [OutReq.brainstorm brainstormUrl { prompt := d, count := 20 }]) ∧
      (args.count = none →
        (callTool net "brainstorm_domains" args).1 =
          [OutReq.brainstorm brainstormUrl { prompt := d, count := 10 }]) ∧
      (∀ url b, OutReq.brainstorm url b ∈ (callTool net "brainstorm_domains" args).1 →
        b.count ≤ 20) := by
  intro net args d hd hne
  refine ⟨?_, ?_, ?_⟩
  · intro hc
    rw [callTool_trace]
    simp [dispatchTool, hd, hne, hc, brainstormDomains, numOr]
  · intro hc
    rw [callTool_trace]
    simp [dispatchTool, hd, hne, hc, brainstormDomains, numOr]
  · intro url b hb
    rw [callTool_trace] at hb
    simp [dispatchTool, hd, hne, brainstormDomains] at hb
    rcases hb with ⟨hurl, hbody⟩
    rw [hbody]
    exact min_le_right _ _

/-- C5 witness: a concrete over-limit count. -/
theorem C5_witness :
    (callTool (failNet "x") "brainstorm_domains"
        { description := some "app", count := some 37 }).1 =
      [OutReq.brainstorm brainstormUrl { prompt := "app", count := 20 }] :=
  ((C5_brainstorm_count_clamped (failNet "x")
      { description := some "app", count := some 37 } "app" rfl (by decide)).1) rfl

/-- C6 counterexample: `max_price = 0` is a supplied optional field, yet the
source's truthiness test drops it, so the query string does not contain
exactly the keys of the fields actually supplied. -/
theorem C6_counterexample :
    (searchParams zeroMaxPrice).map Prod.fst = [] ∧
    suppliedFilterKeys zeroMaxPrice = ["max_price"] ∧
    (searchParams zeroMaxPrice).map Prod.fst ≠ suppliedFilterKeys zeroMaxPrice := by
  decide

/-- C6 (amended): the outbound query string contains exactly the keys of the
optional fields supplied with truthy values (non-zero numbers, non-empty
strings, non-empty lists) — absent or falsy-valued fields are omitted, never
sent as empty; in particular, supplying only `max_price = 15` produces the
query string `max_price=15`. -/
theorem C6_truthy_filter_keys :
    (∀ o : SearchOptions, (searchParams o).map Prod.fst = truthyFilterKeys o) ∧
    searchQueryString maxPriceOnly = "max_price=15" := by
  constructor
  · intro o
    rcases o with ⟨c, mp, np, t, s, l⟩
    have hc : ((match c with
        | some c0 => if c0 = "" then ([] : List (String × String)) else [("category", c0)]
        | none => []).map Prod.fst) = (if strTruthy c then ["category"] else []) := by
      cases c with
      | none => simp [strTruthy]
      | some c0 => by_cases h : c0 = "" <;> simp [strTruthy, h]
    have hmp : ((match mp with
        | some p => if p = 0 then ([] : List (String × String)) else [("max_price", toString p)]
        | none => []).map Prod.fst) = (if numTruthy mp then ["max_price"] else []) := by
      cases mp with
      | none => simp [numTruthy]
      | some p => by_cases h : p = 0 <;> simp [numTruthy, h]
    have hnp : ((match np with
        | some p => if p = 0 then ([] : List (String × String)) else [("min_price", toString p)]
        | none => []).map Prod.fst) = (if numTruthy np then ["min_price"] else []) := by
      cases np with
      | none => simp [numTruthy]
      | some p => by_cases h : p = 0 <;> simp [numTruthy, h]
    have ht : ((match t with
        | some l0 => if l0.length > 0 then [("tlds", String.intercalate "," l0)] else ([] : List (String × String))
        | none => []).map Prod.fst) = (if listTruthy t then ["tlds"] else []) := by
      cases t with
      | none => simp [listTruthy]
      | some l0 => by_cases h : l0.length > 0 <;> simp [listTruthy, h]
    have hs : ((match s with
        | some s0 => if s0 = "" then ([] : List (String × String)) else [("sort", s0)]
        | none => []).map Prod.fst) = (if strTruthy s then ["sort"] else []) := by
      cases s with
      | none => simp [strTruthy]
      | some s0 => by_cases h : s0 = "" <;> simp [strTruthy, h]
    have hl : ((match l with
        | some n => if n = 0 then ([] : List (String × String)) else [("limit", toString n)]
        | none => []).map Prod.fst) = (if numTruthy l then ["limit"] else []) := by
      cases l with
      | none => simp [numTruthy]
      | some n => by_cases h : n = 0 <;> simp [numTruthy, h]
    simp only [searchParams, truthyFilterKeys, List.map_append]
    rw [hc, hmp, hnp, ht, hs, hl]
  · decide

/-- C7: on the spec's sample lookup result, the formatted text is exactly the
five documented lines, each of those lines occurs in the rendered line list,
and the premium note line does not. -/
theorem C7_format_domain_sample :
    formatDomainResult xcomLookup =
      "Domain: x.com\nStatus: AVAILABLE\nAvailable: Yes\nPurchase Price: $12\nRenewal Price: $15/year" ∧
    "Domain: x.com" ∈ formatDomainResultLines xcomLookup ∧
    "Status: AVAILABLE" ∈ formatDomainResultLines xcomLookup ∧
    "Available: Yes" ∈ formatDomainResultLines xcomLookup ∧
    "Purchase Price: $12" ∈ formatDomainResultLines xcomLookup ∧
    "Renewal Price: $15/year" ∈ formatDomainResultLines xcomLookup ∧
    "Note: This is a PREMIUM domain" ∉ formatDomainResultLines xcomLookup := by
  decide

/-- Each category with an absent description contributes exactly one line. -/
theorem flatten_categoryLines_length (cats : List CategoryInfo)
    (h : ∀ c ∈ cats, c.description = none) :
    ((cats.map categoryLines).flatten).length = cats.length := by
  induction cats with
  | nil => simp
  | cons c cs ih =>
    have hc : c.description = none := h c (by simp)
    have hcs : ∀ x ∈ cs, x.description = none := fun x hx => h x (by simp [hx])
    simp [categoryLines, hc, strTruthy, ih hcs]

/-- C8: each formatting function is a total function on its declared input
type, and fields that are absent are omitted from the output: the first line
of every rendering is defined for every input, and the optional price,
suggestion, pros/cons, verdict, filter and description blocks disappear (no
error, no placeholder line) when their fields are absent. -/
theorem C8_formatters_total :
    (∀ r : DomainCheckResult,
      (formatDomainResultLines r).head? = some ("Domain: " ++ r.domain)) ∧
    (∀ r : DomainCheckResult, r.purchase_price = none → r.suggestions = none →
      (formatDomainResultLines r).length = 3) ∧
    (∀ r : ExploreResult,
      (formatExploreResultLines r).length = 5 + r.results.length) ∧
    (∀ p g, formatBrainstormResultLines { suggestions := [], prompt := p, generated_at := g } =
      ["Brainstorm Results for: \"" ++ p ++ "\"", "", "",
       "No available domains found. Try a different description or be more specific."]) ∧
    (∀ r : AnalyzeResult, r.pros = [] → r.cons = [] → r.verdict = "" →
      (formatAnalyzeResultLines r).length = 10) ∧
    (∀ r : SearchResult, r.filters.category = none → r.filters.max_price = none →
      r.filters.tlds = none → r.domains ≠ [] →
      (formatSearchResultLines r).length = 3 + r.domains.length) ∧
    (∀ r : CategoriesResult, (∀ c ∈ r.categories, c.description = none) →
      (formatCategoriesResultLines r).length = 5 + r.categories.length) := by
  refine ⟨?_, ?_, ?_, ?_, ?_, ?_, ?_⟩
  · intro r; simp [formatDomainResultLines]
  · intro r h1 h2
    simp [formatDomainResultLines, h1, h2, numTruthy]
  · intro r
    simp [formatExploreResultLines]
    omega
  · intro p g
    simp [formatBrainstormResultLines, List.filter]
  · intro r h1 h2 h3
    simp [formatAnalyzeResultLines, h1, h2, h3]
  · intro r h1 h2 h3 h4
    simp [formatSearchResultLines, searchFilterEntries, h1, h2, h3, strTruthy,
      numTruthy, h4]
    omega
  · intro r h
    simp [formatCategoriesResultLines, flatten_categoryLines_length r.categories h]
    omega

/-- C8 witness: the omission clauses applied at concrete records. -/
theorem C8_witness :
    (formatDomainResultLines bareLookup).length = 3 ∧
    (formatAnalyzeResultLines bareAnalyze).length = 10 ∧
    (formatSearchResultLines bareSearch).length = 4 ∧
    (formatCategoriesResultLines bareCategories).length = 6 :=
  ⟨C8_formatters_total.2.1 bareLookup rfl rfl,
   C8_formatters_total.2.2.2.2.1 bareAnalyze rfl rfl rfl,
   C8_formatters_total.2.2.2.2.2.1 bareSearch rfl rfl rfl (by decide),
   C8_formatters_total.2.2.2.2.2.2 bareCategories (by decide)⟩

/-- C9: when the suggestions list is non-empty, the rendering appends the
"Available Alternatives:" block containing exactly the first five suggestions
in order — at most 5 bullet lines, further suggestions dropped. -/
theorem C9_suggestions_capped_at_five :
    ∀ (r : DomainCheckResult) (sg : List Suggestion),
      r.suggestions = some sg → sg ≠ [] →
      formatDomainResultLines r =
        formatDomainResultLines { r with suggestions := none } ++
          "" :: "Available Alternatives:" :: (sg.take 5).map suggestionLine ∧
      ((sg.take 5).map suggestionLine).length ≤ 5 := by
  intro r sg h hne
  constructor
  · simp [formatDomainResultLines, h, List.length_pos.mpr hne]
  · simp [List.length_take]

/-- C9 witness: seven suggestions render as the first five bullets. -/
theorem C9_witness :
    formatDomainResultLines crowdedLookup =
      formatDomainResultLines { crowdedLookup with suggestions := none } ++
        "" :: "Available Alternatives:" :: (crowdedSuggestions.take 5).map suggestionLine ∧
    ((crowdedSuggestions.take 5).map suggestionLine).length ≤ 5 :=
  C9_suggestions_capped_at_five crowdedLookup crowdedSuggestions rfl (by decide)

/-- C10: supplying count = 0 to brainstorm_domains behaves exactly like
supplying no count: the outbound POST body carries count = 10. -/
theorem C10_zero_count_treated_as_absent :
    ∀ (net : Net) (args : Args) (d : String),
      args.description = some d → d ≠ "" → args.count = some 0 →
      callTool net "brainstorm_domains" args =
        callTool net "brainstorm_domains" { args with count := none } ∧
      (callTool net "brainstorm_domains" args).1 =
        [OutReq.brainstorm brainstormUrl { prompt := d, count := 10 }] := by
  intro net args d hd hne hc
  constructor
  · simp [callTool, dispatchTool, hd, hne, hc, brainstormDomains, numOr, Except.map]
  · rw [callTool_trace]
    simp [dispatchTool, hd, hne, hc, brainstormDomains, numOr]

/-- C10 witness: a concrete zero count. -/
theorem C10_witness :
    callTool (failNet "x") "brainstorm_domains"
        { description := some "app", count := some 0 } =
      callTool (failNet "x") "brainstorm_domains" { description := some "app" } ∧
    (callTool (failNet "x") "brainstorm_domains"
        { description := some "app", count := some 0 }).1 =
      [OutReq.brainstorm brainstormUrl { prompt := "app", count := 10 }] :=
  C10_zero_count_treated_as_absent (failNet "x")
    { description := some "app", count := some 0 } "app" rfl (by decide) rfl

end ADS
